import Mathlib

/-!
Shallow embedding of the dataset-refresh pipeline implemented in
src/update_dbacks_statcast.py, together with theorems settling the
specification claims about it.

Modelling conventions:
* Calendar dates are day numbers (Nat); comparing the YYYY-MM-DD strings of
  the source is order-isomorphic to comparing day numbers.
* A data frame / CSV file is a `Csv`: its column names, its rows, and a flag
  recording whether every value of the game_date column parses as a date
  (rows always carry a structured date, so files the pipeline itself writes
  with strftime have the flag true).
* The filesystem touched by the script is an `FsState`: the content at the
  canonical path (if the file exists) and the timestamped backup files.
  Backup names embed a YYYYMMDD_HHMMSS timestamp, so lexicographic name
  order equals timestamp order; backups are modelled as (timestamp, content)
  pairs with the timestamp a Nat.
* pandas sort_values over several columns uses a stable lexicographic sort;
  it is modelled with insertion sort, which is stable, over the
  lexicographic comparison `sortLe`.
* drop_duplicates(subset=key, keep=last) keeps, in file order, exactly the
  rows that have no later row with the same key; `dropDupLast` mirrors that.
-/

/-- One pitch-event row of the dataset. The composite key columns and the
game date are structured; every other column is opaque payload. -/
structure Record where
  game_pk : Nat
  at_bat_number : Nat
  pitch_number : Nat
  game_date : Nat
  payload : Nat
  deriving DecidableEq, Repr

/-- A tabular file or in-memory data frame: column names, rows, and whether
the game_date column parses (pd.to_datetime succeeds). -/
structure Csv where
  columns : List String
  rows : List Record
  dates_valid : Bool
  deriving DecidableEq, Repr

/-- The composite key (game_pk, at_bat_number, pitch_number) used by
drop_duplicates in the source. -/
def compKey (r : Record) : Nat × Nat × Nat :=
  (r.game_pk, r.at_bat_number, r.pitch_number)

/-- Lexicographic comparison on (game_date, game_pk, at_bat_number,
pitch_number), the sort key of sort_values in the source. -/
def sortLe (a b : Record) : Bool :=
  if a.game_date < b.game_date then true
  else if b.game_date < a.game_date then false
  else if a.game_pk < b.game_pk then true
  else if b.game_pk < a.game_pk then false
  else if a.at_bat_number < b.at_bat_number then true
  else if b.at_bat_number < a.at_bat_number then false
  else decide (a.pitch_number ≤ b.pitch_number)

/-- The sort order as a relation, for use with insertion sort. -/
def sortR (a b : Record) : Prop := sortLe a b = true

instance : DecidableRel sortR := fun a b =>
  inferInstanceAs (Decidable (sortLe a b = true))

/-- drop_duplicates(subset=[game_pk, at_bat_number, pitch_number],
keep=last): keep a row exactly when no later row shares its composite key. -/
def dropDupLast : List Record → List Record
  | [] => []
  | r :: rs =>
    if rs.any (fun s => compKey s == compKey r) then dropDupLast rs
    else r :: dropDupLast rs

/-- Lines 155-191 of the source: when the fetch window starts after the
season start, keep the existing rows dated strictly before the window and
append the freshly fetched rows; otherwise the fetch replaces everything.
Then sort by (game_date, game_pk, at_bat_number, pitch_number) and drop
duplicate composite keys keeping the last occurrence. -/
def merge_datasets (existing fetched : List Record) (start_date season_start : Nat) :
    List Record :=
  let final_rows :=
    if season_start < start_date then
      existing.filter (fun r => decide (r.game_date < start_date)) ++ fetched
    else fetched
  dropDupLast (List.insertionSort sortR final_rows)

/-- The required-column list of verify_csv_file (source line 75). -/
def required_columns : List String :=
  ["pitch_type", "game_date", "player_name", "batter", "pitcher"]

/-- verify_csv_file (source lines 65-94): empty check, required columns,
game_date parse check, and the minimum row-count sanity floor of 100. -/
def verify_csv_file (f : Csv) : Bool × String :=
  if f.rows.isEmpty then (false, "File is empty")
  else if !(required_columns.filter (fun c => !(f.columns.contains c))).isEmpty then
    (false, "Missing required columns")
  else if !f.dates_valid then (false, "Invalid game_date format")
  else if f.rows.length < 100 then (false, "Suspiciously low row count")
  else (true, "File verified successfully")

/-- should_update (source lines 50-58): no recorded date means update; else
update when at least min_days_between_updates whole days have elapsed. -/
def should_update (last_update_date : Option Nat) (min_days_between_updates : Nat)
    (today : Nat) : Bool :=
  match last_update_date with
  | none => true
  | some d => decide ((today : Int) - d ≥ min_days_between_updates)

/-- get_last_game_date (source lines 37-48): the maximum game_date when the
column exists (None on an empty frame, matching max? on an empty list). -/
def get_last_game_date (f : Csv) : Option Nat :=
  if f.columns.contains "game_date" then (f.rows.map Record.game_date).max? else none

/-- MIN_DAYS_BETWEEN_UPDATES constant (source line 115). -/
def MIN_DAYS_BETWEEN_UPDATES : Nat := 7

/-- LOOKBACK_DAYS constant (source line 125). -/
def LOOKBACK_DAYS : Nat := 14

/-- Number of timestamped backups kept by the cleanup loop (source line 257). -/
def RETENTION_COUNT : Nat := 2

/-- Fetch-window computation (source lines 127-138): with a watermark, start
fourteen days before it but never before season start; without one, start at
season start. The end is always today. -/
def compute_window (last_game_date : Option Nat) (season_start today : Nat) :
    Nat × Nat :=
  match last_game_date with
  | some d => ((max ((d : Int) - LOOKBACK_DAYS) (season_start : Int)).toNat, today)
  | none => (season_start, today)

/-- Backup cleanup (source lines 253-261): when more than RETENTION_COUNT
backups exist, sort by name (equals timestamp order) and delete all but the
most recent RETENTION_COUNT. -/
def prune_backups (backups : List (Nat × Csv)) : List (Nat × Csv) :=
  if backups.length > RETENTION_COUNT then
    let sorted := List.insertionSort (fun p q => p.1 ≤ q.1) backups
    sorted.drop (sorted.length - RETENTION_COUNT)
  else backups

instance : IsTrans (Nat × Csv) (fun p q => p.1 ≤ q.1) :=
  ⟨fun _ _ _ hab hbc => Nat.le_trans hab hbc⟩

instance : IsTotal (Nat × Csv) (fun p q => p.1 ≤ q.1) :=
  ⟨fun p q => Nat.le_total p.1 q.1⟩

/-- The filesystem as the script sees it: the canonical CSV path and the
timestamped backup files next to it. -/
structure FsState where
  canonical : Option Csv
  backups : List (Nat × Csv)
  deriving DecidableEq, Repr

/-- Result of the pyb.statcast call: an exception, or a data frame
(None and an empty frame both behave as an empty row list downstream). -/
inductive FetchResult where
  | fetchError : FetchResult
  | fetched : Csv → FetchResult
  deriving DecidableEq, Repr

/-- How one invocation of main ends. -/
inductive RunOutcome where
  | noFile : RunOutcome
  | skipped : RunOutcome
  | noData : RunOutcome
  | rolledBack : String → RunOutcome
  | committed : Int → RunOutcome
  | fetchErrorRecovered : RunOutcome
  deriving DecidableEq, Repr

/-- max(backup_files, key=getctime) (source line 280): the first backup with
maximal timestamp. -/
def latest_backup (backups : List (Nat × Csv)) : Option (Nat × Csv) :=
  backups.foldl
    (fun acc p =>
      match acc with
      | none => some p
      | some q => if q.1 < p.1 then some p else some q)
    none

/-- Fallback branch of the except handler (source lines 274-282): when the
canonical file is missing and timestamped backups exist, restore the most
recent one; otherwise do nothing. -/
def fallback_restore (st : FsState) : FsState :=
  if !st.backups.isEmpty && st.canonical.isNone then
    match latest_backup st.backups with
    | some p =>
        { canonical := some p.2
          backups := st.backups.eraseP (fun q => q.1 == p.1) }
    | none => st
  else st

/-- The except handler of main (source lines 265-282): restore the current
backup when it exists (replacing any canonical file), otherwise fall back to
the most recent timestamped backup, and only onto a missing canonical path. -/
def error_recovery (st : FsState) (backup_ts : Option Nat) : FsState :=
  match backup_ts with
  | some ts =>
    match st.backups.find? (fun p => p.1 == ts) with
    | some p =>
        { canonical := some p.2
          backups := st.backups.eraseP (fun q => q.1 == ts) }
    | none => fallback_restore st
  | none => fallback_restore st

/-- One invocation of main (source lines 96-282), with the ambient inputs
made explicit: the filesystem, the current date, the season start date, the
backup timestamp this run would use, and the fetch result. The current
backup file is created before the write and is either renamed back over the
canonical path (verification failure) or deleted (commit), so on both paths
it cancels out of the surviving backup list and only the retained
timestamped backups remain; the timestamp argument is therefore not
observable in the final state. -/
def run (st : FsState) (today season_start _now_ts : Nat) (fr : FetchResult) :
    FsState × RunOutcome :=
  match st.canonical with
  | none => (st, RunOutcome.noFile)
  | some existing =>
    let existing_rows := existing.rows.length
    let last_game_date := get_last_game_date existing
    if last_game_date.isSome
        && !(should_update last_game_date MIN_DAYS_BETWEEN_UPDATES today) then
      (st, RunOutcome.skipped)
    else
      let start_date := (compute_window last_game_date season_start today).1
      match fr with
      | FetchResult.fetchError =>
          (error_recovery st none, RunOutcome.fetchErrorRecovered)
      | FetchResult.fetched data =>
        if data.rows.isEmpty then (st, RunOutcome.noData)
        else
          let final_rows := merge_datasets existing.rows data.rows start_date season_start
          let old_nonempty :=
            !(existing.rows.filter (fun r => decide (r.game_date < start_date))).isEmpty
          let final_cols :=
            if season_start < start_date && old_nonempty then
              existing.columns ++ data.columns.filter (fun c => !(existing.columns.contains c))
            else data.columns
          let final_csv : Csv :=
            { columns := final_cols, rows := final_rows, dates_valid := true }
          let v := verify_csv_file final_csv
          if !v.1 then
            ({ canonical := some existing, backups := st.backups },
              RunOutcome.rolledBack v.2)
          else
            ({ canonical := some final_csv, backups := prune_backups st.backups },
              RunOutcome.committed ((final_rows.length : Int) - existing_rows))

/-- Discriminator for the committed outcome, used to state that a concrete
run did not commit. -/
def is_committed : RunOutcome → Bool
  | RunOutcome.committed _ => true
  | _ => false

/-- Rows with n distinct game_pk values on a single date, for concrete
scenarios. -/
def mkRows (n base date : Nat) : List Record :=
  (List.range n).map (fun i =>
    { game_pk := base + i, at_bat_number := 1, pitch_number := 1,
      game_date := date, payload := 0 })

/-- Unfolded arithmetic form of the lexicographic comparison. -/
theorem sortLe_iff (a b : Record) : sortLe a b = true ↔
    (a.game_date < b.game_date ∨ (a.game_date = b.game_date ∧
      (a.game_pk < b.game_pk ∨ (a.game_pk = b.game_pk ∧
        (a.at_bat_number < b.at_bat_number ∨ (a.at_bat_number = b.at_bat_number ∧
          a.pitch_number ≤ b.pitch_number)))))) := by
  simp only [sortLe]
  split_ifs <;> simp <;> omega

theorem sortLe_trans (a b c : Record) (hab : sortLe a b = true) (hbc : sortLe b c = true) :
    sortLe a c = true := by
  rw [sortLe_iff] at *
  omega

theorem sortLe_total (a b : Record) : sortLe a b = true ∨ sortLe b a = true := by
  rw [sortLe_iff, sortLe_iff]
  omega

theorem sortLe_false_of_date_lt (a b : Record) (h : b.game_date < a.game_date) :
    sortLe a b = false := by
  rw [← Bool.not_eq_true, sortLe_iff]
  omega

instance : IsTrans Record sortR := ⟨sortLe_trans⟩

instance : IsTotal Record sortR := ⟨fun a b => sortLe_total a b⟩

theorem dropDupLast_sublist (l : List Record) : (dropDupLast l).Sublist l := by
  induction l with
  | nil => simp [dropDupLast]
  | cons r rs ih =>
    simp only [dropDupLast]
    split
    · exact ih.cons r
    · exact ih.cons₂ r

theorem nodup_keys_dropDupLast (l : List Record) : ((dropDupLast l).map compKey).Nodup := by
  induction l with
  | nil => simp [dropDupLast]
  | cons r rs ih =>
    simp only [dropDupLast]
    split
    · exact ih
    · next hany =>
        simp only [List.map_cons, List.nodup_cons]
        refine ⟨fun hmem => ?_, ih⟩
        obtain ⟨s, hs, hks⟩ := List.mem_map.mp hmem
        have hs' : s ∈ rs := (dropDupLast_sublist rs).subset hs
        have : rs.any (fun x => compKey x == compKey r) = true :=
          List.any_eq_true.mpr ⟨s, hs', by simp [hks]⟩
        simp [this] at hany

theorem mem_dropDupLast_decomp {l : List Record} {r : Record} (h : r ∈ dropDupLast l) :
    ∃ l₁ l₂, l = l₁ ++ r :: l₂ ∧ ∀ t ∈ l₂, compKey t ≠ compKey r := by
  induction l with
  | nil => simp [dropDupLast] at h
  | cons x xs ih =>
    simp only [dropDupLast] at h
    by_cases hany : xs.any (fun s => compKey s == compKey x) = true
    · rw [if_pos hany] at h
      obtain ⟨l₁, l₂, heq, hno⟩ := ih h
      exact ⟨x :: l₁, l₂, by rw [heq]; rfl, hno⟩
    · rw [if_neg hany] at h
      rcases List.mem_cons.mp h with hx | hmem
      · subst hx
        refine ⟨[], xs, rfl, fun t ht hkey => hany ?_⟩
        exact List.any_eq_true.mpr ⟨t, ht, by simp [hkey]⟩
      · obtain ⟨l₁, l₂, heq, hno⟩ := ih hmem
        exact ⟨x :: l₁, l₂, by rw [heq]; rfl, hno⟩

theorem dropDupLast_eq_self {l : List Record} (h : (l.map compKey).Nodup) :
    dropDupLast l = l := by
  induction l with
  | nil => rfl
  | cons r rs ih =>
    simp only [List.map_cons, List.nodup_cons] at h
    have hany : rs.any (fun s => compKey s == compKey r) = false := by
      rw [List.any_eq_false]
      intro s hs
      simp only [beq_iff_eq]
      exact fun hk => h.1 (List.mem_map.mpr ⟨s, hs, hk⟩)
    simp only [dropDupLast, hany]
    simp [ih h.2]

/-- C3: every merge output is sorted ascending by
(game_date, game_pk, at_bat_number, pitch_number) and contains no duplicate
composite keys. -/
theorem C3_merge_sorted_and_key_nodup (existing fetched : List Record)
    (start_date season_start : Nat) :
    List.Pairwise sortR (merge_datasets existing fetched start_date season_start) ∧
    ((merge_datasets existing fetched start_date season_start).map compKey).Nodup := by
  constructor
  · exact List.Pairwise.sublist (dropDupLast_sublist _) (List.sorted_insertionSort sortR _)
  · exact nodup_keys_dropDupLast _

/-- C4: deduplication keeps the last occurrence in sort order, so when a
composite key occurs both among the preserved rows and among the freshly
fetched rows (which, per the fetch contract, are dated at or after the
window start), the surviving row with that key is a fetched one. -/
theorem C4_fresh_row_wins (existing fetched : List Record)
    (start_date season_start : Nat) (k : Nat × Nat × Nat)
    (hwin : ∀ f ∈ fetched, start_date ≤ f.game_date)
    (hshared : ∃ f ∈ fetched, compKey f = k) :
    ∀ r ∈ merge_datasets existing fetched start_date season_start,
      compKey r = k → r ∈ fetched := by
  intro r hr hrk
  simp only [merge_datasets] at hr
  by_cases hss : season_start < start_date
  · rw [if_pos hss] at hr
    set pres := existing.filter (fun x => decide (x.game_date < start_date)) with hpres
    have hsorted : List.Pairwise sortR (List.insertionSort sortR (pres ++ fetched)) :=
      List.sorted_insertionSort sortR _
    have hrs : r ∈ List.insertionSort sortR (pres ++ fetched) :=
      (dropDupLast_sublist _).subset hr
    have hrmem : r ∈ pres ++ fetched := (List.perm_insertionSort sortR _).subset hrs
    rcases List.mem_append.mp hrmem with hrp | hrf
    · exfalso
      have hrdate : r.game_date < start_date := by
        simpa using List.of_mem_filter hrp
      obtain ⟨f, hfmem, hfk⟩ := hshared
      obtain ⟨l₁, l₂, heq, hno⟩ := mem_dropDupLast_decomp hr
      have hfs : f ∈ List.insertionSort sortR (pres ++ fetched) :=
        ((List.perm_insertionSort sortR _).symm).subset (List.mem_append_right _ hfmem)
      rw [heq] at hfs hsorted
      rcases List.mem_append.mp hfs with hf1 | hf2
      · have hle : sortR f r :=
          (List.pairwise_append.mp hsorted).2.2 f hf1 r (List.mem_cons_self r l₂)
        have hflt : sortLe f r = false :=
          sortLe_false_of_date_lt f r (lt_of_lt_of_le hrdate (hwin f hfmem))
        simp [sortR, hflt] at hle
      · rcases List.mem_cons.mp hf2 with hfr | hfl2
        · subst hfr
          exact absurd (hwin f hfmem) (by omega)
        · exact hno f hfl2 (hfk.trans hrk.symm)
    · exact hrf
  · rw [if_neg hss] at hr
    exact (List.perm_insertionSort sortR _).subset ((dropDupLast_sublist _).subset hr)

/-- C7 counterexample: the verifier accepts a one-hundred-row candidate that
has no game_pk, at_bat_number or pitch_number column at all, because
verify_csv_file checks only pitch_type, game_date, player_name, batter and
pitcher. -/
theorem C7_counterexample :
    (verify_csv_file
      { columns := required_columns, rows := mkRows 100 0 5, dates_valid := true }).1 = true ∧
    (required_columns.contains "game_pk" = false ∧
      required_columns.contains "at_bat_number" = false ∧
      required_columns.contains "pitch_number" = false) := by
  constructor
  · decide
  · decide

/-- C7 amended: the verifier rejects any candidate missing one of the five
columns it actually checks: pitch_type, game_date, player_name, batter and
pitcher. -/
theorem C7_missing_required_column_fails (f : Csv) (c : String)
    (hc : c ∈ required_columns) (hm : c ∉ f.columns) :
    (verify_csv_file f).1 = false := by
  have hne : (required_columns.filter (fun x => !(f.columns.contains x))) ≠ [] := by
    intro hnil
    have hcnot := List.filter_eq_nil_iff.mp hnil c hc
    simp only [Bool.not_eq_true', Bool.not_eq_false] at hcnot
    exact hm (List.mem_of_elem_eq_true hcnot)
  simp only [verify_csv_file]
  split_ifs with h1 h2 h3 h4
  · rfl
  · rfl
  · rfl
  · rfl
  · exfalso
    apply hne
    apply List.isEmpty_iff.mp
    simpa using h2

/-- Witness for the amended C7 at a candidate missing pitch_type. -/
theorem C7_missing_required_column_fails_witness :
    (verify_csv_file
      { columns := ["game_date", "player_name", "batter", "pitcher"],
        rows := mkRows 100 0 5, dates_valid := true }).1 = false :=
  C7_missing_required_column_fails _ "pitch_type" (by decide) (by decide)


theorem prune_backups_length_le (l : List (Nat × Csv)) :
    (prune_backups l).length ≤ RETENTION_COUNT := by
  simp only [prune_backups]
  split_ifs with h
  · simp only [List.length_drop]
    omega
  · omega

theorem prune_backups_keeps_recent (l : List (Nat × Csv)) :
    ∀ p ∈ prune_backups l, ∀ q ∈ l, q ∉ prune_backups l → q.1 ≤ p.1 := by
  intro p hp q hq hqn
  by_cases h : l.length > RETENTION_COUNT
  · simp only [prune_backups, if_pos h] at hp hqn
    set sorted := List.insertionSort (fun p q => p.1 ≤ q.1) l with hsd
    have hsorted : List.Pairwise (fun p q : Nat × Csv => p.1 ≤ q.1) sorted :=
      List.sorted_insertionSort _ l
    have hqs : q ∈ sorted :=
      ((List.perm_insertionSort (fun p q : Nat × Csv => p.1 ≤ q.1) l).symm).subset hq
    have hsplit :
        sorted.take (sorted.length - RETENTION_COUNT) ++
          sorted.drop (sorted.length - RETENTION_COUNT) = sorted :=
      List.take_append_drop _ sorted
    have hqt : q ∈ sorted.take (sorted.length - RETENTION_COUNT) := by
      rcases List.mem_append.mp (by rw [hsplit]; exact hqs) with h1 | h2
      · exact h1
      · exact absurd h2 hqn
    have hpair : List.Pairwise (fun p q : Nat × Csv => p.1 ≤ q.1)
        (sorted.take (sorted.length - RETENTION_COUNT) ++
          sorted.drop (sorted.length - RETENTION_COUNT)) := by
      rw [hsplit]
      exact hsorted
    exact (List.pairwise_append.mp hpair).2.2 q hqt p hp
  · simp only [prune_backups, if_neg h] at hqn
    exact absurd hq hqn

/-- C9: after any committed run at most RETENTION_COUNT timestamped backups
remain, and every backup the pruner deleted is no newer than every backup it
kept. -/
theorem C9_backup_retention (st : FsState) (today s ts : Nat) (fr : FetchResult)
    (r : Int) (h : (run st today s ts fr).2 = RunOutcome.committed r) :
    (run st today s ts fr).1.backups.length ≤ RETENTION_COUNT ∧
    ∀ p ∈ (run st today s ts fr).1.backups, ∀ q ∈ st.backups,
      q ∉ (run st today s ts fr).1.backups → q.1 ≤ p.1 := by
  obtain ⟨co, bks⟩ := st
  cases co with
  | none => simp [run] at h
  | some ex =>
    cases fr with
    | fetchError =>
        simp only [run] at h
        split_ifs at h
    | fetched data =>
        simp only [run] at h ⊢
        split_ifs at h ⊢ <;>
          exact ⟨prune_backups_length_le bks,
            fun p hp q hq hqn => prune_backups_keeps_recent bks p hp q hq hqn⟩

set_option maxRecDepth 100000 in
/-- Witness for C9: a concrete committed run that starts with three
timestamped backups and ends with two. -/
theorem C9_backup_retention_witness :
    (run
        { canonical := some { columns := required_columns,
                              rows := [⟨1, 1, 1, 950, 0⟩], dates_valid := true },
          backups := [(1, { columns := [], rows := [], dates_valid := true }),
                      (2, { columns := [], rows := [], dates_valid := true }),
                      (3, { columns := [], rows := [], dates_valid := true })] }
        1000 900 12
        (FetchResult.fetched
          { columns := required_columns, rows := mkRows 100 2000 990,
            dates_valid := true })).1.backups.length ≤ RETENTION_COUNT ∧
    ∀ p ∈ (run
        { canonical := some { columns := required_columns,
                              rows := [⟨1, 1, 1, 950, 0⟩], dates_valid := true },
          backups := [(1, { columns := [], rows := [], dates_valid := true }),
                      (2, { columns := [], rows := [], dates_valid := true }),
                      (3, { columns := [], rows := [], dates_valid := true })] }
        1000 900 12
        (FetchResult.fetched
          { columns := required_columns, rows := mkRows 100 2000 990,
            dates_valid := true })).1.backups,
      ∀ q ∈ [(1, ({ columns := [], rows := [], dates_valid := true } : Csv)),
             (2, { columns := [], rows := [], dates_valid := true }),
             (3, { columns := [], rows := [], dates_valid := true })],
        q ∉ (run
          { canonical := some { columns := required_columns,
                                rows := [⟨1, 1, 1, 950, 0⟩], dates_valid := true },
            backups := [(1, { columns := [], rows := [], dates_valid := true }),
                        (2, { columns := [], rows := [], dates_valid := true }),
                        (3, { columns := [], rows := [], dates_valid := true })] }
          1000 900 12
          (FetchResult.fetched
            { columns := required_columns, rows := mkRows 100 2000 990,
              dates_valid := true })).1.backups → q.1 ≤ p.1 :=
  C9_backup_retention _ 1000 900 12 _ 99 (by decide)

/-- C1: whenever a run ends rolled back (the verifier rejected the freshly
written candidate), the canonical file again holds exactly its pre-run
content and the retained backups are unchanged. -/
theorem C1_rollback_restores_canonical (ex : Csv) (bks : List (Nat × Csv))
    (today s ts : Nat) (fr : FetchResult) (reason : String)
    (h : (run ⟨some ex, bks⟩ today s ts fr).2 = RunOutcome.rolledBack reason) :
    (run ⟨some ex, bks⟩ today s ts fr).1 = ⟨some ex, bks⟩ := by
  cases fr with
  | fetchError =>
      simp only [run] at h
      split_ifs at h
  | fetched data =>
      simp only [run] at h ⊢
      split_ifs at h ⊢ <;> rfl

/-- Witness for C1: a five-row fetch merges into a five-row candidate, the
verifier rejects it for its row count, and the original one-row dataset is
back at the canonical path. -/
theorem C1_rollback_restores_canonical_witness :
    (run
        { canonical := some { columns := required_columns,
                              rows := [⟨1, 1, 1, 950, 0⟩], dates_valid := true },
          backups := [] }
        1000 900 21
        (FetchResult.fetched
          { columns := required_columns, rows := mkRows 5 500 990,
            dates_valid := true })).1 =
      ⟨some { columns := required_columns,
              rows := [⟨1, 1, 1, 950, 0⟩], dates_valid := true }, []⟩ :=
  C1_rollback_restores_canonical _ [] 1000 900 21 _ "Suspiciously low row count"
    (by decide)

theorem fallback_restore_of_canonical_some (st : FsState) (c : Csv)
    (h : st.canonical = some c) : fallback_restore st = st := by
  simp [fallback_restore, h]

theorem fallback_restore_of_canonical_none (st : FsState) (h : st.canonical = none)
    (p : Nat × Csv) (hp : latest_backup st.backups = some p) :
    (fallback_restore st).canonical = some p.2 := by
  have hne : st.backups.isEmpty = false := by
    cases hbk : st.backups with
    | nil => rw [hbk] at hp; exact absurd hp (by simp [latest_backup])
    | cons x xs => simp
  simp [fallback_restore, h, hne, hp]

/-- C10: the generic except handler, when this run has no backup of its own,
restores a retained timestamped backup only onto a missing canonical path:
an existing canonical file is never replaced, and when the canonical file is
absent the most recent retained backup is the one restored. -/
theorem C10_recovery_never_clobbers (st : FsState) (bts : Option Nat)
    (hb : ∀ ts2, bts = some ts2 → st.backups.find? (fun p => p.1 == ts2) = none) :
    (∀ c, st.canonical = some c → error_recovery st bts = st) ∧
    (st.canonical = none → ∀ p, latest_backup st.backups = some p →
      (error_recovery st bts).canonical = some p.2) := by
  have hfb : error_recovery st bts = fallback_restore st := by
    cases bts with
    | none => rfl
    | some ts2 => simp [error_recovery, hb ts2 rfl]
  rw [hfb]
  exact ⟨fun c hc => fallback_restore_of_canonical_some st c hc,
    fun hn p hp => fallback_restore_of_canonical_none st hn p hp⟩

/-- Witness for C10: with the canonical file present and one retained
backup, recovery with no current backup leaves the filesystem untouched. -/
theorem C10_recovery_never_clobbers_witness :
    error_recovery
        ⟨some { columns := required_columns, rows := [], dates_valid := true },
         [(5, { columns := [], rows := [], dates_valid := true })]⟩ none =
      ⟨some { columns := required_columns, rows := [], dates_valid := true },
       [(5, { columns := [], rows := [], dates_valid := true })]⟩ :=
  (C10_recovery_never_clobbers _ none (fun _ h => Option.noConfusion h)).1 _ rfl

/-- C6 amended: with a watermark d, the run skips exactly when
today − d < MIN_DAYS_BETWEEN_UPDATES, and a skipped run mutates nothing.
An immediately repeated invocation therefore reports skipped only when the
dataset left by the first run has a watermark within
MIN_DAYS_BETWEEN_UPDATES days of today, which need not hold. -/
theorem C6_gate_iff (ex : Csv) (bks : List (Nat × Csv)) (today s ts d : Nat)
    (fr : FetchResult) (hw : get_last_game_date ex = some d) :
    (((today : Int) - d < MIN_DAYS_BETWEEN_UPDATES) →
        run ⟨some ex, bks⟩ today s ts fr = (⟨some ex, bks⟩, RunOutcome.skipped)) ∧
    (((today : Int) - d ≥ MIN_DAYS_BETWEEN_UPDATES) →
        (run ⟨some ex, bks⟩ today s ts fr).2 ≠ RunOutcome.skipped) := by
  constructor
  · intro hlt
    have hgate : should_update (some d) MIN_DAYS_BETWEEN_UPDATES today = false := by
      simp only [should_update, decide_eq_false_iff_not]
      omega
    simp [run, hw, hgate]
  · intro hge
    have hgate : should_update (some d) MIN_DAYS_BETWEEN_UPDATES today = true := by
      simp only [should_update, decide_eq_true_eq]
      omega
    cases fr with
    | fetchError => simp [run, hw, hgate]
    | fetched data =>
        simp only [run, hw, hgate]
        split_ifs <;> simp_all

/-- Witness for the amended C6: a watermark five days old makes the run
skip with no mutation. -/
theorem C6_gate_iff_witness :
    run ⟨some { columns := required_columns, rows := [⟨1, 1, 1, 995, 0⟩],
                dates_valid := true }, []⟩ 1000 900 31 FetchResult.fetchError =
      (⟨some { columns := required_columns, rows := [⟨1, 1, 1, 995, 0⟩],
               dates_valid := true }, []⟩, RunOutcome.skipped) :=
  (C6_gate_iff _ [] 1000 900 31 995 FetchResult.fetchError (by decide)).1 (by decide)

set_option maxRecDepth 100000 in
/-- C6 counterexample: a run commits a dataset whose newest game is ten days
old, so the immediately following invocation passes the gate again (outcome
noData here, not skipped) instead of reporting skipped. -/
theorem C6_counterexample :
    (run ⟨some { columns := required_columns, rows := [⟨1, 1, 1, 950, 0⟩],
                 dates_valid := true }, []⟩ 1000 900 11
        (FetchResult.fetched { columns := required_columns,
                               rows := mkRows 100 1000 990, dates_valid := true })).2 =
      RunOutcome.committed 99 ∧
    (run (run ⟨some { columns := required_columns, rows := [⟨1, 1, 1, 950, 0⟩],
                      dates_valid := true }, []⟩ 1000 900 11
          (FetchResult.fetched { columns := required_columns,
                                 rows := mkRows 100 1000 990, dates_valid := true })).1
        1000 900 12
        (FetchResult.fetched { columns := required_columns, rows := [],
                               dates_valid := true })).2 = RunOutcome.noData ∧
    RunOutcome.noData ≠ RunOutcome.skipped := by
  exact ⟨by decide, by decide, by decide⟩

/-- C5 amended: when the dataset file exists but yields no watermark, the
gate lets the run proceed and the window is (seasonStartDate, today), with
the merge ignoring every existing row (full-season refresh); when the
dataset file does not exist, main returns immediately instead (see the C5
counterexample). -/
theorem C5_no_watermark_full_window (ex : Csv) (bks : List (Nat × Csv))
    (today s ts : Nat) (data : Csv) (hw : get_last_game_date ex = none) :
    compute_window (get_last_game_date ex) s today = (s, today) ∧
    (run ⟨some ex, bks⟩ today s ts (FetchResult.fetched data)).2 ≠ RunOutcome.skipped ∧
    merge_datasets ex.rows data.rows s s =
      dropDupLast (List.insertionSort sortR data.rows) := by
  refine ⟨by rw [hw]; rfl, ?_, by simp [merge_datasets]⟩
  simp only [run, hw]
  split_ifs <;> simp_all

/-- Witness for the amended C5: a dataset file with no game_date column has
no watermark; the gate does not skip and the window starts at season
start. -/
theorem C5_no_watermark_full_window_witness :
    compute_window
        (get_last_game_date { columns := ["pitch_type"], rows := [], dates_valid := true })
        900 1000 = (900, 1000) ∧
    (run ⟨some { columns := ["pitch_type"], rows := [], dates_valid := true }, []⟩
        1000 900 42
        (FetchResult.fetched { columns := required_columns, rows := [],
                               dates_valid := true })).2 ≠ RunOutcome.skipped ∧
    merge_datasets
        ({ columns := ["pitch_type"], rows := [], dates_valid := true } : Csv).rows
        ({ columns := required_columns, rows := [], dates_valid := true } : Csv).rows
        900 900 =
      dropDupLast (List.insertionSort sortR
        ({ columns := required_columns, rows := [], dates_valid := true } : Csv).rows) :=
  C5_no_watermark_full_window _ [] 1000 900 42 _ (by decide)

/-- C5 counterexample: with no dataset file at all, main exits at once; no
fetch, no initial load and no commit happen. -/
theorem C5_counterexample :
    run ⟨none, []⟩ 1000 900 41
        (FetchResult.fetched { columns := required_columns,
                               rows := mkRows 100 4000 990, dates_valid := true }) =
      (⟨none, []⟩, RunOutcome.noFile) ∧
    is_committed RunOutcome.noFile = false := by
  exact ⟨by decide, by decide⟩

/-- C2 amended: a successful fetch that returns zero rows makes the run
return early with the no-data outcome: nothing is merged or written, the
canonical file and the backups are untouched, and prior rows inside the
fetch window are not removed. -/
theorem C2_empty_fetch_no_mutation (ex : Csv) (bks : List (Nat × Csv))
    (today s ts : Nat) (cols : List String) (dv : Bool)
    (hgate : should_update (get_last_game_date ex) MIN_DAYS_BETWEEN_UPDATES today
      = true) :
    run ⟨some ex, bks⟩ today s ts (FetchResult.fetched ⟨cols, [], dv⟩) =
      (⟨some ex, bks⟩, RunOutcome.noData) := by
  simp [run, hgate]

/-- Witness for the amended C2 at a concrete one-row dataset. -/
theorem C2_empty_fetch_no_mutation_witness :
    run ⟨some { columns := required_columns, rows := [⟨1, 1, 1, 980, 0⟩],
                dates_valid := true }, []⟩ 1000 900 52
        (FetchResult.fetched ⟨required_columns, [], true⟩) =
      (⟨some { columns := required_columns, rows := [⟨1, 1, 1, 980, 0⟩],
               dates_valid := true }, []⟩, RunOutcome.noData) :=
  C2_empty_fetch_no_mutation _ [] 1000 900 52 required_columns true (by decide)

/-- C2 counterexample: the fetch window is [966, 1000] and the existing row
dated 980 lies inside it, yet the empty fetch leaves the dataset unchanged
and uncommitted instead of removing that row and committing. -/
theorem C2_counterexample :
    run ⟨some { columns := required_columns, rows := [⟨1, 1, 1, 980, 0⟩],
                dates_valid := true }, []⟩ 1000 900 51
        (FetchResult.fetched ⟨required_columns, [], true⟩) =
      (⟨some { columns := required_columns, rows := [⟨1, 1, 1, 980, 0⟩],
               dates_valid := true }, []⟩, RunOutcome.noData) ∧
    is_committed RunOutcome.noData = false ∧
    (compute_window (some 980) 900 1000).1 ≤ 980 ∧ 980 ≤ 1000 := by
  exact ⟨by decide, by decide, by decide, by decide⟩

/-- Witness for C4: the preserved row dated day 5 and the fetched row dated
day 10 share key (7, 1, 1); the surviving row is the fetched one. -/
theorem C4_fresh_row_wins_witness :
    (⟨7, 1, 1, 10, 0⟩ : Record) ∈ [(⟨7, 1, 1, 10, 0⟩ : Record)] :=
  C4_fresh_row_wins [⟨7, 1, 1, 5, 0⟩] [⟨7, 1, 1, 10, 0⟩] 10 0 (7, 1, 1)
    (by decide) ⟨⟨7, 1, 1, 10, 0⟩, by decide, by decide⟩
    ⟨7, 1, 1, 10, 0⟩ (by decide) (by decide)

/-- C8 amended: a committed run reports rows_added as the net difference
between the new and the old row count (fetched minus discarded when keys
are unique), not as the number of fetched rows, and reports no
rows-removed figure at all. -/
theorem C8_reported_net_difference (st : FsState) (today s ts : Nat)
    (fr : FetchResult) (r : Int)
    (h : (run st today s ts fr).2 = RunOutcome.committed r) :
    ∃ ex final, st.canonical = some ex ∧
      (run st today s ts fr).1.canonical = some final ∧
      r = (final.rows.length : Int) - ex.rows.length := by
  obtain ⟨co, bks⟩ := st
  cases co with
  | none => simp [run] at h
  | some ex =>
    cases fr with
    | fetchError =>
        simp only [run] at h
        split_ifs at h
    | fetched data =>
        simp only [run] at h ⊢
        split_ifs at h ⊢ <;>
          exact ⟨ex, _, rfl, rfl, by injection h with h2; rw [← h2]⟩

set_option maxRecDepth 100000 in
/-- Witness for the amended C8: a run that discards one row and fetches one
hundred reports 99, the net difference. -/
theorem C8_reported_net_difference_witness :
    ∃ ex final,
      (⟨some { columns := required_columns, rows := [⟨1, 1, 1, 950, 0⟩],
               dates_valid := true }, []⟩ : FsState).canonical = some ex ∧
      (run ⟨some { columns := required_columns, rows := [⟨1, 1, 1, 950, 0⟩],
                   dates_valid := true }, []⟩ 1000 900 63
          (FetchResult.fetched { columns := required_columns,
                                 rows := mkRows 100 5000 990,
                                 dates_valid := true })).1.canonical = some final ∧
      (99 : Int) = (final.rows.length : Int) - ex.rows.length :=
  C8_reported_net_difference _ 1000 900 63 _ 99 (by decide)

set_option maxRecDepth 100000 in
/-- C8 counterexample: one preserved row, one discarded row, one hundred and
fifty fetched rows; the final dataset has preserved_count + 150 = 151 rows
but the run reports rows_added = 149, not 150, and produces no rows-removed
figure. -/
theorem C8_counterexample :
    (run ⟨some { columns := required_columns,
                 rows := [⟨1, 1, 1, 950, 0⟩, ⟨2, 1, 1, 990, 0⟩],
                 dates_valid := true }, []⟩ 1000 900 61
        (FetchResult.fetched { columns := required_columns,
                               rows := mkRows 150 1000 990,
                               dates_valid := true })).2 =
      RunOutcome.committed 149 ∧
    (run ⟨some { columns := required_columns,
                 rows := [⟨1, 1, 1, 950, 0⟩, ⟨2, 1, 1, 990, 0⟩],
                 dates_valid := true }, []⟩ 1000 900 61
        (FetchResult.fetched { columns := required_columns,
                               rows := mkRows 150 1000 990,
                               dates_valid := true })).1.canonical.map
        (fun f => f.rows.length) = some 151 ∧
    (149 : Int) ≠ 150 := by
  exact ⟨by decide, by decide, by decide⟩
